import Mathlib

/-!
Shallow embedding of the two request handlers of the Gartner-Finance-Agent
repository and proofs of the specification claims about them.

* `QuoteFetcher` embeds `src/lambda_function.py`: the Alpha Vantage daily-quote
  fetcher (classification of the decoded upstream body and extraction of the
  latest daily bar).
* `ChatProxy` embeds `src/lambda_proxy_function.py`: the Bedrock chat proxy and
  its DynamoDB-backed conversation store.

External services (secrets manager, HTTP transport, S3, Bedrock, DynamoDB's
storage engine, the wall clock) are inputs of the embedded functions; the
embedding starts where the handler's own logic starts, on already-decoded
data.
-/

namespace QuoteFetcher

/-- One decoded JSON value, as produced by `json.loads` on the upstream HTTP
body.  JSON numbers are modelled as rationals; objects are field lists with
distinct keys (Python dicts). -/
inductive Json where
  | null
  | bool (b : Bool)
  | num (q : Rat)
  | str (s : String)
  | arr (elems : List Json)
  | obj (fields : List (String × Json))

/-- The uncaught Python exceptions the success path of `lambda_handler` can
raise (`KeyError` from subscripting, `IndexError` from `sorted(...)[0]` on an
empty dict, `TypeError`/`AttributeError` — collapsed into `typeError` — from
treating a non-dict as a dict or a non-leaf as a number). -/
inductive PyFault where
  | keyError (k : String)
  | indexError
  | typeError

/-- Python `k in data` on a decoded JSON object. -/
def hasKey (data : List (String × Json)) (k : String) : Bool :=
  data.any (fun p => p.1 == k)

/-- Python `data[k]` on a decoded JSON object: the value at `k`, else
`KeyError`. -/
def dictGet (data : List (String × Json)) (k : String) : Except PyFault Json :=
  match data.find? (fun p => p.1 == k) with
  | some p => Except.ok p.2
  | none => Except.error (PyFault.keyError k)

/-- Viewing a JSON value as a Python dict (for `.keys()` and subscripting):
any non-object raises. -/
def asDict : Json → Except PyFault (List (String × Json))
  | Json.obj fields => Except.ok fields
  | _ => Except.error PyFault.typeError

/-- The value of Python `float(x)` / `int(x)` applied to a decoded JSON leaf,
kept symbolically: which entry the token was read from is what the claims are
about, not its numeric interpretation. -/
inductive PyNum where
  | ofString (s : String)
  | ofRat (q : Rat)
  | ofBool (b : Bool)

/-- Python `float(x)` on a decoded JSON value: strings, numbers and booleans
convert, anything else raises `TypeError`.  `ValueError` on a malformed
numeral string is not modelled (the token is carried symbolically). -/
def pyFloat : Json → Except PyFault PyNum
  | Json.str s => Except.ok (PyNum.ofString s)
  | Json.num q => Except.ok (PyNum.ofRat q)
  | Json.bool b => Except.ok (PyNum.ofBool b)
  | _ => Except.error PyFault.typeError

/-- Python `int(x)` on a decoded JSON value, modelled like `pyFloat` (the
numeric interpretation is carried symbolically). -/
def pyInt : Json → Except PyFault PyNum
  | Json.str s => Except.ok (PyNum.ofString s)
  | Json.num q => Except.ok (PyNum.ofRat q)
  | Json.bool b => Except.ok (PyNum.ofBool b)
  | _ => Except.error PyFault.typeError

/-- Python compares strings lexicographically by code point; this is exactly
`String`'s `≤` order.  A separate name is used so that one reduction-friendly
`Decidable` instance (via the character lists) is picked up everywhere:
`String.decidableLE` itself is opaque to kernel reduction. -/
def strle (a b : String) : Prop := a ≤ b

instance : DecidableRel strle :=
  fun a b => decidable_of_iff (a.toList ≤ b.toList) String.le_iff_toList_le.symm

instance : IsTotal String strle := ⟨fun a b => le_total a b⟩

instance : IsTrans String strle := ⟨fun _ _ _ h1 h2 => le_trans h1 h2⟩

/-- The parsed daily bar returned in the 200 body (`result` in the source);
`open_` models the JSON field named `open`. -/
structure DailyBar where
  symbol : String
  date : String
  open_ : PyNum
  high : PyNum
  low : PyNum
  close : PyNum
  volume : PyNum

/-- The JSON body of a quote-fetcher response: a plain error object, the
unexpected-shape error echoing the raw decoded body, or a daily bar. -/
inductive QuoteBody where
  | err (msg : String)
  | errRaw (msg : String) (raw : List (String × Json))
  | bar (b : DailyBar)

/-- A quote-fetcher HTTP response. -/
structure QuoteResponse where
  statusCode : Nat
  body : QuoteBody

/-- The S3 `put_object` performed on the success path: the entire raw decoded
payload, keyed by symbol, bucket fixed. -/
structure S3Put where
  bucket : String
  key : String
  payload : List (String × Json)

/-- The success path of `lambda_handler` (source lines 31–54): select
`sorted(time_series.keys())[0]`, read the bar out of that entry, write the
whole raw payload to S3 and return 200 with the bar.  Python `sorted` is a
stable sort over a total order and is modelled by `List.insertionSort`, also
stable, hence extensionally the same list. -/
def success_path (symbol : String) (data : List (String × Json))
    (time_series : Json) : Except PyFault (QuoteResponse × S3Put) := do
  let ts ← asDict time_series
  match List.insertionSort strle (ts.map Prod.fst) with
  | [] => Except.error PyFault.indexError
  | latest_date :: _ => do
    let latestJ ← dictGet ts latest_date
    let latest ← asDict latestJ
    let o ← pyFloat (← dictGet latest "1. open")
    let h ← pyFloat (← dictGet latest "2. high")
    let l ← pyFloat (← dictGet latest "3. low")
    let c ← pyFloat (← dictGet latest "4. close")
    let v ← pyInt (← dictGet latest "6. volume")
    Except.ok (⟨200, QuoteBody.bar ⟨symbol, latest_date, o, h, l, c, v⟩⟩,
               ⟨"stock-agent-sriram", symbol ++ ".json", data⟩)

/-- Lines 21–54 of `lambda_handler`: classification of the decoded JSON body
in source order, then the success path.  The S3 write happens only on
success. -/
def lambda_handler_decoded (symbol : String) (data : List (String × Json)) :
    Except PyFault (QuoteResponse × Option S3Put) :=
  if hasKey data "Error Message" then
    Except.ok (⟨400, QuoteBody.err ("Invalid symbol: " ++ symbol)⟩, none)
  else if hasKey data "Note" || hasKey data "Information" then
    Except.ok
      (⟨429, QuoteBody.err
          "Alpha Vantage rate limit – wait 60 seconds or use a different key"⟩,
       none)
  else if !hasKey data "Time Series (Daily)" then
    Except.ok (⟨500, QuoteBody.errRaw "Unexpected response" data⟩, none)
  else do
    let ts ← dictGet data "Time Series (Daily)"
    let rp ← success_path symbol data ts
    Except.ok (rp.1, some rp.2)

end QuoteFetcher

namespace ChatProxy

/-- A stored chat message (`messages` entries written by
`save_message_to_db`): role, content and an epoch-milliseconds timestamp.
This code only ever writes integer timestamps, so the string-timestamp
fallback of `handle_load_conversation` is unreachable under this schema. -/
structure Message where
  role : String
  content : String
  timestamp : Int

/-- A DynamoDB attribute value, used only for attributes of a conversation
record that this code never reads or writes (`Item.extra`). -/
inductive AttrVal where
  | s (v : String)
  | n (v : Int)
  | bool (b : Bool)
  | l (vs : List AttrVal)
  | m (fields : List (String × AttrVal))
  | null

/-- A conversation record as stored in the `StockAgent-History` table.  The
attributes this code touches are explicit and optional (a DynamoDB item need
not carry them); any further attributes live in `extra`.  The item's
`sessionId` attribute is the table key and is carried by the table, not the
item. -/
structure Item where
  title : Option String
  messages : Option (List Message)
  lastMessage : Option String
  messageCount : Option Int
  createdAt : Option Int
  updatedAt : Option Int
  extra : List (String × AttrVal)

/-- The conversation store: an association list from `sessionId` to the item
stored under it (unique keys, listed in the order `scan` returns them). -/
abbrev Table := List (String × Item)

/-- DynamoDB `get_item` by primary key. -/
def Table.getItem (t : Table) (sid : String) : Option Item :=
  (t.find? (fun p => p.1 == sid)).map Prod.snd

/-- A full-record write by primary key (`put_item`, and the write-back half of
`update_item`): overwrites the item stored under the key, or inserts it. -/
def Table.putItem : Table → String → Item → Table
  | [], sid, it => [(sid, it)]
  | p :: rest, sid, it =>
    if p.1 == sid then (sid, it) :: rest else p :: Table.putItem rest sid it

/-- DynamoDB `delete_item` by primary key. -/
def Table.deleteItem (t : Table) (sid : String) : Table :=
  t.filter (fun p => !(p.1 == sid))

/-- Python `s.strip()`: drop leading and trailing whitespace.  (Python strips
the Unicode whitespace set; `Char.isWhitespace` covers the ASCII part, which
is all the claims exercise.)  `String.trim` itself is opaque to kernel
reduction, so stripping is modelled on the character list. -/
def pyStrip (s : String) : String :=
  ⟨((s.data.dropWhile Char.isWhitespace).reverse.dropWhile Char.isWhitespace).reverse⟩

/-- Python `s[:n]`: the first `n` characters (code points) of `s`. -/
def pyTake (s : String) (n : Nat) : String := ⟨s.data.take n⟩

/-- `save_message_to_db` (source lines 134–210): read-modify-write of the
conversation record.  `timestamp` is the value of `int(time.time() * 1000)`,
an input of the embedding.  The update branch's `update_item` SETs `messages`,
`lastMessage`, `messageCount`, `updatedAt` and `title` and leaves every other
attribute of the item in place. -/
def save_message_to_db (t : Table) (session_id user_message bot_response : String)
    (timestamp : Int) : Table :=
  match t.getItem session_id with
  | some item =>
    let messages := (item.messages.getD []) ++
      [⟨"user", user_message, timestamp⟩,
       ⟨"assistant", bot_response, timestamp + 1⟩]
    let title :=
      match item.title with
      | none => if user_message.length > 0 then pyTake user_message 50 else "New Chat"
      | some ti =>
        if ti = "" ∨ ti = "New Chat" then
          (if user_message.length > 0 then pyTake user_message 50 else "New Chat")
        else ti
    t.putItem session_id
      { title := some title
        messages := some messages
        lastMessage := some (pyTake bot_response 100)
        messageCount := some (messages.length : Int)
        createdAt := item.createdAt
        updatedAt := some timestamp
        extra := item.extra }
  | none =>
    let messages : List Message :=
      [⟨"user", user_message, timestamp⟩,
       ⟨"assistant", bot_response, timestamp + 1⟩]
    t.putItem session_id
      { title := some (if user_message.length > 0 then pyTake user_message 50 else "New Chat")
        messages := some messages
        lastMessage := some (pyTake bot_response 100)
        messageCount := some 2
        createdAt := some timestamp
        updatedAt := some timestamp
        extra := [] }

/-- The payload of one event pulled from the Bedrock completion stream: a
chunk whose bytes decoded to the given text (`none` when UTF-8 decoding
fails), a chunk carrying no `bytes` field, or an event that is not a chunk. -/
inductive StreamEvent where
  | chunkBytes (decoded : Option String)
  | chunkNoBytes
  | nonChunk

/-- One stream event tagged with the value `time.time()` has (in seconds,
modelled integrally) at the loop head when the event is examined.  The wall
clock is an input of the embedding. -/
structure TimedEvent where
  checkTime : Int
  event : StreamEvent

/-- The text a loop iteration appends for an event: the decoded chunk text,
or nothing for non-chunks, chunks without bytes, and undecodable bytes. -/
def decodedText (e : TimedEvent) : String :=
  match e.event with
  | StreamEvent.chunkBytes (some text) => text
  | _ => ""

/-- The accumulation loop of `handle_send_message` (source lines 79–93).
`stream_start` is the value `time.time()` returned just before the loop —
hence before the first chunk has arrived.  The loop breaks at the first event
whose check sees more than 30 seconds elapsed and concatenates the decodable
chunk texts of the events before it. -/
def accumulate (stream_start : Int) : List TimedEvent → String
  | [] => ""
  | e :: rest =>
    if e.checkTime - stream_start > 30 then ""
    else decodedText e ++ accumulate stream_start rest

/-- The outcome of `invoke_agent`: a `botocore` `ClientError`, or a completion
stream together with the instant `stream_start` at which `time.time()` is read
before the loop and the instants at which the loop examines each event. -/
inductive AgentResult where
  | clientError (code msg : String)
  | stream (stream_start : Int) (events : List TimedEvent)

/-- A message as reformatted by `handle_load_conversation` for the frontend:
the timestamp has been rendered to a string. -/
structure FormattedMessage where
  role : String
  content : String
  timestamp : String

/-- One projected conversation in the `list` response. -/
structure ConvSummary where
  sessionId : String
  title : String
  lastMessage : String
  timestamp : Int
  messageCount : Int

/-- The JSON body of a chat-proxy response (only the shapes this code
writes). -/
inductive ProxyBody where
  | err (msg : String)
  | errDetails (msg details : String)
  | sendOk (response sessionId : String)
  | loadOk (messages : List FormattedMessage)
  | listOk (conversations : List ConvSummary)
  | success

/-- A chat-proxy HTTP response; every response carries the same permissive
CORS headers, which are therefore not modelled. -/
structure ProxyResponse where
  statusCode : Nat
  body : ProxyBody

/-- Python falsiness of an optional string field read with `.get` (`if not
session_id`): missing or empty. -/
def pyFalsyStr : Option String → Bool
  | none => true
  | some s => s == ""

/-- `handle_send_message` (source lines 55–131).  External effects are inputs:
`message` and `sessionIdOpt` are the body fields (`body.get('message', '')`,
`body.get('sessionId', ...)`); `requestId` is `context.aws_request_id`;
`agent` is the outcome of `invoke_agent`; `timestamp` is the clock value read
inside `save_message_to_db`; `saveOk` says whether the DynamoDB calls inside
`save_message_to_db` succeed — when they raise instead, the handler catches
and logs (source lines 104–106) and the store is unchanged, since the single
`put_item`/`update_item` call is the only write and a raising call writes
nothing.  Returns the response and the resulting store. -/
def handle_send_message (message sessionIdOpt : Option String) (requestId : String)
    (agent : AgentResult) (timestamp : Int) (saveOk : Bool) (t : Table) :
    ProxyResponse × Table :=
  let user_message := pyStrip (message.getD "")
  let session_id := sessionIdOpt.getD ("session-" ++ requestId)
  if user_message = "" then
    (⟨400, ProxyBody.err "Empty message"⟩, t)
  else
    match agent with
    | AgentResult.clientError _ msg =>
      (⟨500, ProxyBody.errDetails "Bedrock service error" msg⟩, t)
    | AgentResult.stream stream_start events =>
      let completion0 := accumulate stream_start events
      let completion :=
        if pyStrip completion0 = "" then
          "Agent returned no response. Try rephrasing your query."
        else completion0
      let t' :=
        if saveOk then
          save_message_to_db t session_id user_message (pyStrip completion) timestamp
        else t
      (⟨200, ProxyBody.sendOk (pyStrip completion) session_id⟩, t')

/-- `handle_load_conversation` (source lines 213–286).  `isoFmt` models
`datetime.fromtimestamp(ts / 1000).isoformat()` (local-time rendering is an
external concern).  Under this schema timestamps are always integers, so the
non-numeric branch and the per-message exception fallback of the source are
unreachable. -/
def handle_load_conversation (sessionIdOpt : Option String) (isoFmt : Int → String)
    (t : Table) : ProxyResponse :=
  if pyFalsyStr sessionIdOpt then ⟨400, ProxyBody.err "sessionId required"⟩
  else
    match t.getItem (sessionIdOpt.getD "") with
    | none => ⟨200, ProxyBody.loadOk []⟩
    | some item =>
      ⟨200, ProxyBody.loadOk ((item.messages.getD []).map (fun m =>
        ⟨m.role, m.content, isoFmt m.timestamp⟩))⟩

/-- The projection `handle_list_conversations` builds for one scanned record;
the item's `sessionId` attribute equals its table key. -/
def projectConversation (p : String × Item) : ConvSummary :=
  { sessionId := p.1
    title := p.2.title.getD "New Chat"
    lastMessage := p.2.lastMessage.getD ""
    timestamp := p.2.updatedAt.getD (p.2.createdAt.getD 0)
    messageCount := p.2.messageCount.getD 0 }

/-- Descending-timestamp comparison used by `conversations.sort(key=...,
reverse=True)`. -/
def tsGe (a b : ConvSummary) : Prop := b.timestamp ≤ a.timestamp

instance : DecidableRel tsGe := fun a b => Int.decLe b.timestamp a.timestamp

instance : IsTotal ConvSummary tsGe := ⟨fun a b => le_total b.timestamp a.timestamp⟩

instance : IsTrans ConvSummary tsGe := ⟨fun _ _ _ h1 h2 => le_trans h2 h1⟩

/-- `handle_list_conversations` (source lines 289–321): scan everything,
project, sort by timestamp newest first.  Python `list.sort` is a stable sort
over the total preorder induced by the key, modelled by the equally stable
`List.insertionSort`. -/
def handle_list_conversations (t : Table) : ProxyResponse :=
  ⟨200, ProxyBody.listOk (List.insertionSort tsGe (t.map projectConversation))⟩

/-- `handle_delete_conversation` (source lines 324–349). -/
def handle_delete_conversation (sessionIdOpt : Option String) (t : Table) :
    ProxyResponse × Table :=
  if pyFalsyStr sessionIdOpt then (⟨400, ProxyBody.err "sessionId required"⟩, t)
  else (⟨200, ProxyBody.success⟩, t.deleteItem (sessionIdOpt.getD ""))

/-- `handle_rename_conversation` (source lines 352–390).  DynamoDB
`update_item` with `SET title = :title` upserts: when the key is absent it
creates an item holding only the title. -/
def handle_rename_conversation (sessionIdOpt titleOpt : Option String) (t : Table) :
    ProxyResponse × Table :=
  if pyFalsyStr sessionIdOpt then (⟨400, ProxyBody.err "sessionId required"⟩, t)
  else
    let new_title := pyStrip (titleOpt.getD "")
    if new_title = "" then (⟨400, ProxyBody.err "title required"⟩, t)
    else
      let sid := sessionIdOpt.getD ""
      match t.getItem sid with
      | some item => (⟨200, ProxyBody.success⟩, t.putItem sid { item with title := some new_title })
      | none =>
        (⟨200, ProxyBody.success⟩, t.putItem sid
          { title := some new_title, messages := none, lastMessage := none,
            messageCount := none, createdAt := none, updatedAt := none, extra := [] })

end ChatProxy

/-! ## Supporting lemmas -/

open QuoteFetcher ChatProxy

/-- Bind of a success in the `Except` monad. -/
theorem exc_ok_bind {ε α β : Type} (a : α) (f : α → Except ε β) :
    (Except.ok a >>= f) = f a := rfl

/-- Bind of a failure in the `Except` monad. -/
theorem exc_error_bind {ε α β : Type} (e : ε) (f : α → Except ε β) :
    ((Except.error e : Except ε α) >>= f) = Except.error e := rfl

/-- Inversion of a successful `Except` bind. -/
theorem exc_bind_ok_iff {ε α β : Type} {x : Except ε α} {f : α → Except ε β}
    {b : β} : (x >>= f) = Except.ok b ↔ ∃ a, x = Except.ok a ∧ f a = Except.ok b := by
  cases x with
  | error e => simp [exc_error_bind]
  | ok a => simp [exc_ok_bind]

/-- Key presence in a decoded JSON object is exactly success of `find?` on
its field list. -/
theorem hasKey_exists_find? (data : List (String × Json)) (k : String) :
    hasKey data k = true ↔ ∃ p, data.find? (fun q => q.1 == k) = some p := by
  rw [hasKey, List.any_eq_true]
  constructor
  · rintro ⟨x, hx, hpx⟩
    exact Option.isSome_iff_exists.mp (List.find?_isSome.mpr ⟨x, hx, hpx⟩)
  · rintro ⟨p, hp⟩
    have hpk := List.find?_some hp
    exact ⟨p, List.mem_of_find?_eq_some hp, by simpa using hpk⟩

/-- Reading back the key just written by `putItem`. -/
theorem Table.getItem_putItem_self (t : Table) (sid : String) (it : Item) :
    (t.putItem sid it).getItem sid = some it := by
  induction t with
  | nil => simp [Table.putItem, Table.getItem]
  | cons p rest ih =>
    by_cases h : p.1 == sid
    · simp [Table.putItem, h, Table.getItem]
    · simpa [Table.putItem, h, Table.getItem, List.find?_cons, ih] using ih

/-! ## Claims about the quote fetcher -/

/-- C1: for every decoded JSON payload, `lambda_handler` classifies in fixed
precedence order: an `Error Message` key gives status 400 regardless of the
other keys; otherwise a `Note` or `Information` key gives status 429 even
when a `Time Series (Daily)` key is also present; otherwise a missing
`Time Series (Daily)` key gives status 500 echoing the raw body; otherwise
the handler proceeds to the success path. -/
theorem claim_C1_classification_precedence (symbol : String)
    (data : List (String × Json)) :
    (hasKey data "Error Message" = true →
      lambda_handler_decoded symbol data =
        Except.ok (⟨400, QuoteBody.err ("Invalid symbol: " ++ symbol)⟩, none)) ∧
    (hasKey data "Error Message" = false →
      (hasKey data "Note" || hasKey data "Information") = true →
      lambda_handler_decoded symbol data =
        Except.ok (⟨429, QuoteBody.err
          "Alpha Vantage rate limit – wait 60 seconds or use a different key"⟩,
          none)) ∧
    (hasKey data "Error Message" = false → hasKey data "Note" = false →
      hasKey data "Information" = false →
      hasKey data "Time Series (Daily)" = false →
      lambda_handler_decoded symbol data =
        Except.ok (⟨500, QuoteBody.errRaw "Unexpected response" data⟩, none)) ∧
    (hasKey data "Error Message" = false → hasKey data "Note" = false →
      hasKey data "Information" = false →
      hasKey data "Time Series (Daily)" = true →
      ∃ ts, dictGet data "Time Series (Daily)" = Except.ok ts ∧
        (∀ rp : QuoteResponse × S3Put, success_path symbol data ts = Except.ok rp →
          lambda_handler_decoded symbol data = Except.ok (rp.1, some rp.2)) ∧
        (∀ e, success_path symbol data ts = Except.error e →
          lambda_handler_decoded symbol data = Except.error e)) := by
  refine ⟨?_, ?_, ?_, ?_⟩
  · intro h1
    simp [lambda_handler_decoded, h1]
  · intro h1 h2
    simp [lambda_handler_decoded, h1, h2]
  · intro h1 h2 h3 h4
    simp [lambda_handler_decoded, h1, h2, h3, h4]
  · intro h1 h2 h3 h4
    obtain ⟨p, hp⟩ := (hasKey_exists_find? data "Time Series (Daily)").mp h4
    refine ⟨p.2, ?_, ?_, ?_⟩
    · simp [dictGet, hp]
    · intro rp hrp
      simp [lambda_handler_decoded, h1, h2, h3, h4, dictGet, hp, hrp, exc_ok_bind]
    · intro e he
      simp [lambda_handler_decoded, h1, h2, h3, h4, dictGet, hp, he, exc_ok_bind,
        exc_error_bind]

/-- Witness for C1: the 400 branch wins over a present time series, and the
429 branch wins over a present time series. -/
theorem claim_C1_classification_precedence_witness :
    lambda_handler_decoded "AAPL"
        [("Error Message", Json.str "bad"),
         ("Time Series (Daily)", Json.obj [])] =
      Except.ok (⟨400, QuoteBody.err "Invalid symbol: AAPL"⟩, none) ∧
    lambda_handler_decoded "IBM"
        [("Note", Json.str "limit"),
         ("Time Series (Daily)", Json.obj [])] =
      Except.ok (⟨429, QuoteBody.err
        "Alpha Vantage rate limit – wait 60 seconds or use a different key"⟩,
        none) :=
  ⟨(claim_C1_classification_precedence "AAPL"
      [("Error Message", Json.str "bad"), ("Time Series (Daily)", Json.obj [])]).1
      (by rfl),
   (claim_C1_classification_precedence "IBM"
      [("Note", Json.str "limit"), ("Time Series (Daily)", Json.obj [])]).2.1
      (by rfl) (by rfl)⟩

/-- C2: every 200 response of the success path returns the bar of the entry
whose date key is the lexicographically smallest key of the time-series map,
its `date` field equal to that key and its six data fields read from that
entry. -/
theorem claim_C2_latest_is_lex_smallest_date (symbol : String)
    (data : List (String × Json)) (time_series : Json)
    (resp : QuoteResponse) (put : S3Put)
    (h : success_path symbol data time_series = Except.ok (resp, put)) :
    resp.statusCode = 200 ∧
    ∃ ts b, asDict time_series = Except.ok ts ∧ resp.body = QuoteBody.bar b ∧
      b.symbol = symbol ∧
      b.date ∈ ts.map Prod.fst ∧
      (∀ k ∈ ts.map Prod.fst, b.date ≤ k) ∧
      ∃ entryJ entry,
        dictGet ts b.date = Except.ok entryJ ∧ asDict entryJ = Except.ok entry ∧
        (∃ j, dictGet entry "1. open" = Except.ok j ∧ pyFloat j = Except.ok b.open_) ∧
        (∃ j, dictGet entry "2. high" = Except.ok j ∧ pyFloat j = Except.ok b.high) ∧
        (∃ j, dictGet entry "3. low" = Except.ok j ∧ pyFloat j = Except.ok b.low) ∧
        (∃ j, dictGet entry "4. close" = Except.ok j ∧ pyFloat j = Except.ok b.close) ∧
        (∃ j, dictGet entry "6. volume" = Except.ok j ∧ pyInt j = Except.ok b.volume) := by
  simp only [success_path] at h
  rw [exc_bind_ok_iff] at h
  obtain ⟨ts, hts, h⟩ := h
  cases e2 : List.insertionSort strle (ts.map Prod.fst) with
  | nil => rw [e2] at h; exact absurd h (by simp)
  | cons latest rest =>
    rw [e2] at h
    rw [exc_bind_ok_iff] at h; obtain ⟨latestJ, hlJ, h⟩ := h
    rw [exc_bind_ok_iff] at h; obtain ⟨entry, hent, h⟩ := h
    rw [exc_bind_ok_iff] at h; obtain ⟨jo, hjo, h⟩ := h
    rw [exc_bind_ok_iff] at h; obtain ⟨o, ho, h⟩ := h
    rw [exc_bind_ok_iff] at h; obtain ⟨jh, hjh, h⟩ := h
    rw [exc_bind_ok_iff] at h; obtain ⟨hi, hhi, h⟩ := h
    rw [exc_bind_ok_iff] at h; obtain ⟨jl, hjl, h⟩ := h
    rw [exc_bind_ok_iff] at h; obtain ⟨lo, hlo, h⟩ := h
    rw [exc_bind_ok_iff] at h; obtain ⟨jc, hjc, h⟩ := h
    rw [exc_bind_ok_iff] at h; obtain ⟨cl, hcl, h⟩ := h
    rw [exc_bind_ok_iff] at h; obtain ⟨jv, hjv, h⟩ := h
    rw [exc_bind_ok_iff] at h; obtain ⟨vo, hvo, h⟩ := h
    have hmemSort : latest ∈ List.insertionSort strle (ts.map Prod.fst) := by
      rw [e2]; exact List.mem_cons_self _ _
    have hmem : latest ∈ ts.map Prod.fst := (List.mem_insertionSort strle).mp hmemSort
    have hmin : ∀ k ∈ ts.map Prod.fst, strle latest k := by
      intro k hk
      have hk' : k ∈ List.insertionSort strle (ts.map Prod.fst) :=
        (List.mem_insertionSort strle).mpr hk
      rw [e2] at hk'
      rcases List.mem_cons.mp hk' with rfl | hk''
      · exact le_refl k
      · have hs := List.sorted_insertionSort strle (ts.map Prod.fst)
        rw [e2] at hs
        exact (List.sorted_cons.mp hs).1 k hk''
    injection h with h
    injection h with hresp hput
    subst hresp
    exact ⟨rfl, ts, ⟨symbol, latest, o, hi, lo, cl, vo⟩, hts, rfl, rfl, hmem, hmin,
      latestJ, entry, hlJ, hent,
      ⟨jo, hjo, ho⟩, ⟨jh, hjh, hhi⟩, ⟨jl, hjl, hlo⟩, ⟨jc, hjc, hcl⟩, ⟨jv, hjv, hvo⟩⟩

/-- Concrete time-series entry for 2024-01-01 used by the C2 witness. -/
def c2entry1 : Json := Json.obj [("1. open", Json.str "10"), ("2. high", Json.str "11"),
  ("3. low", Json.str "9"), ("4. close", Json.str "10.5"), ("6. volume", Json.str "100")]

/-- Concrete time-series entry for 2024-01-02 used by the C2 witness. -/
def c2entry2 : Json := Json.obj [("1. open", Json.str "20"), ("2. high", Json.str "21"),
  ("3. low", Json.str "19"), ("4. close", Json.str "20.5"), ("6. volume", Json.str "200")]

/-- Concrete two-day time series used by the C2 witness, listed newest
first. -/
def c2ts : Json := Json.obj [("2024-01-02", c2entry2), ("2024-01-01", c2entry1)]

/-- The response the success path produces on `c2ts`: the bar of 2024-01-01,
the lexicographically smallest date. -/
def c2resp : QuoteResponse :=
  ⟨200, QuoteBody.bar ⟨"TSLA", "2024-01-01", PyNum.ofString "10", PyNum.ofString "11",
    PyNum.ofString "9", PyNum.ofString "10.5", PyNum.ofString "100"⟩⟩

/-- The S3 write the success path produces on `c2ts`. -/
def c2put : S3Put := ⟨"stock-agent-sriram", "TSLA.json", []⟩

/-- Witness for C2 on a concrete two-day time series: the selected bar is the
2024-01-01 one. -/
theorem claim_C2_latest_is_lex_smallest_date_witness :
    c2resp.statusCode = 200 ∧
    ∃ ts b, asDict c2ts = Except.ok ts ∧ c2resp.body = QuoteBody.bar b ∧
      b.symbol = "TSLA" ∧
      b.date ∈ ts.map Prod.fst ∧
      (∀ k ∈ ts.map Prod.fst, b.date ≤ k) ∧
      ∃ entryJ entry,
        dictGet ts b.date = Except.ok entryJ ∧ asDict entryJ = Except.ok entry ∧
        (∃ j, dictGet entry "1. open" = Except.ok j ∧ pyFloat j = Except.ok b.open_) ∧
        (∃ j, dictGet entry "2. high" = Except.ok j ∧ pyFloat j = Except.ok b.high) ∧
        (∃ j, dictGet entry "3. low" = Except.ok j ∧ pyFloat j = Except.ok b.low) ∧
        (∃ j, dictGet entry "4. close" = Except.ok j ∧ pyFloat j = Except.ok b.close) ∧
        (∃ j, dictGet entry "6. volume" = Except.ok j ∧ pyInt j = Except.ok b.volume) :=
  claim_C2_latest_is_lex_smallest_date "TSLA" [] c2ts c2resp c2put (by rfl)

/-- A nonempty string has positive length. -/
theorem length_pos_of_ne_empty {s : String} (h : s ≠ "") : 0 < s.length := by
  cases s with
  | mk d =>
    cases d with
    | nil => exact absurd rfl h
    | cons c cs => simp [String.length]

/-- A positive slice of a nonempty string is nonempty. -/
theorem pyTake_ne_empty {s : String} (h : s ≠ "") {n : Nat} (hn : n ≠ 0) :
    pyTake s n ≠ "" := by
  intro hc
  have hdata : s.data.take n = [] := congrArg String.data hc
  rcases List.take_eq_nil_iff.mp hdata with h1 | h2
  · exact hn h1
  · cases s with
    | mk d => exact h (by simp_all)

/-- What `save_message_to_db` leaves under the key when no record existed:
the freshly created record. -/
theorem save_getItem_none (t : Table) (sid u b : String) (ts : Int)
    (h : t.getItem sid = none) :
    (save_message_to_db t sid u b ts).getItem sid = some
      { title := some (if u.length > 0 then pyTake u 50 else "New Chat")
        messages := some [⟨"user", u, ts⟩, ⟨"assistant", b, ts + 1⟩]
        lastMessage := some (pyTake b 100)
        messageCount := some 2
        createdAt := some ts
        updatedAt := some ts
        extra := [] } := by
  rw [save_message_to_db, h]
  exact Table.getItem_putItem_self ..

/-- What `save_message_to_db` leaves under the key when a record existed:
the updated record. -/
theorem save_getItem_some (t : Table) (sid u b : String) (ts : Int) (old : Item)
    (h : t.getItem sid = some old) :
    (save_message_to_db t sid u b ts).getItem sid = some
      { title := some (match old.title with
          | none => if u.length > 0 then pyTake u 50 else "New Chat"
          | some ti =>
            if ti = "" ∨ ti = "New Chat" then
              (if u.length > 0 then pyTake u 50 else "New Chat")
            else ti)
        messages := some ((old.messages.getD []) ++
          [⟨"user", u, ts⟩, ⟨"assistant", b, ts + 1⟩])
        lastMessage := some (pyTake b 100)
        messageCount := some (((old.messages.getD []) ++
          ([⟨"user", u, ts⟩, ⟨"assistant", b, ts + 1⟩] : List Message)).length : Int)
        createdAt := old.createdAt
        updatedAt := some ts
        extra := old.extra } := by
  rw [save_message_to_db, h]
  exact Table.getItem_putItem_self ..

/-! ## Claims about the chat proxy -/

/-- C3: every write of `save_message_to_db` stores a `messageCount` equal to
the length of the `messages` list written by the same call: 2 on creation,
and the prior length plus 2 on update. -/
theorem claim_C3_messageCount_equals_length (t : Table) (sid u b : String) (ts : Int) :
    ∃ item msgs, (save_message_to_db t sid u b ts).getItem sid = some item ∧
      item.messages = some msgs ∧
      item.messageCount = some (msgs.length : Int) ∧
      (t.getItem sid = none → msgs.length = 2) ∧
      (∀ old, t.getItem sid = some old →
        msgs.length = (old.messages.getD []).length + 2) := by
  cases h : t.getItem sid with
  | none =>
    refine ⟨_, _, save_getItem_none t sid u b ts h, rfl, rfl, fun _ => rfl, ?_⟩
    intro old hold
    simp at hold
  | some old =>
    refine ⟨_, _, save_getItem_some t sid u b ts old h, rfl, rfl, ?_, ?_⟩
    · intro hnone
      simp at hnone
    · intro old' hold'
      injection hold' with e
      subst e
      simp

/-- Witness for C3: a creation followed by an update, message counts 2 and
4. -/
theorem claim_C3_messageCount_equals_length_witness :
    (∃ item msgs,
      (save_message_to_db [] "s1" "hi" "there" 1000).getItem "s1" = some item ∧
      item.messages = some msgs ∧ item.messageCount = some (msgs.length : Int) ∧
      msgs.length = 2) ∧
    (∃ item msgs,
      (save_message_to_db (save_message_to_db [] "s1" "hi" "there" 1000)
          "s1" "more" "words" 2000).getItem "s1" = some item ∧
      item.messages = some msgs ∧ item.messageCount = some (msgs.length : Int) ∧
      msgs.length = 4) := by
  constructor
  · obtain ⟨item, msgs, h1, h2, h3, h4, _⟩ :=
      claim_C3_messageCount_equals_length [] "s1" "hi" "there" 1000
    exact ⟨item, msgs, h1, h2, h3, h4 rfl⟩
  · obtain ⟨item, msgs, h1, h2, h3, _, h5⟩ :=
      claim_C3_messageCount_equals_length (save_message_to_db [] "s1" "hi" "there" 1000)
        "s1" "more" "words" 2000
    refine ⟨item, msgs, h1, h2, h3, ?_⟩
    rw [h5 _ (by rfl)]
    rfl

/-- Iterating `save_message_to_db` on a session leaves `createdAt` and the
untouched attributes of its record intact. -/
theorem save_foldl_preserves (sends : List (String × String × Int)) :
    ∀ (t : Table) (sid : String) (old : Item), t.getItem sid = some old →
    ∃ item,
      ((sends.foldl (fun tb a => save_message_to_db tb sid a.1 a.2.1 a.2.2) t).getItem sid)
        = some item ∧ item.createdAt = old.createdAt ∧ item.extra = old.extra := by
  induction sends with
  | nil =>
    intro t sid old h
    exact ⟨old, by simpa using h, rfl, rfl⟩
  | cons a rest ih =>
    intro t sid old h
    rw [List.foldl_cons]
    obtain ⟨item2, h2, hc2, he2⟩ :=
      ih _ sid _ (save_getItem_some t sid a.1 a.2.1 a.2.2 old h)
    exact ⟨item2, h2, hc2, he2⟩

/-- C10: the update branch of `save_message_to_db` changes only `messages`,
`lastMessage`, `messageCount`, `updatedAt` and `title`; in this schema the
remaining parts of the record, `createdAt` and all untouched attributes
(`extra`), keep their values — also across any further sequence of sends to
the same session. -/
theorem claim_C10_update_frame (t : Table) (sid u b : String) (ts : Int) (old : Item)
    (h : t.getItem sid = some old) :
    (∃ item, (save_message_to_db t sid u b ts).getItem sid = some item ∧
      item.createdAt = old.createdAt ∧ item.extra = old.extra ∧
      item.messages = some ((old.messages.getD []) ++
        [⟨"user", u, ts⟩, ⟨"assistant", b, ts + 1⟩]) ∧
      item.lastMessage = some (pyTake b 100) ∧
      item.updatedAt = some ts) ∧
    (∀ sends : List (String × String × Int),
      ∃ item,
        ((sends.foldl (fun tb a => save_message_to_db tb sid a.1 a.2.1 a.2.2) t).getItem sid)
          = some item ∧ item.createdAt = old.createdAt ∧ item.extra = old.extra) := by
  constructor
  · exact ⟨_, save_getItem_some t sid u b ts old h, rfl, rfl, rfl, rfl, rfl⟩
  · intro sends
    exact save_foldl_preserves sends t sid old h

/-- Witness for C10: a record with `createdAt = 5` and an untouched attribute
keeps both across two further sends. -/
theorem claim_C10_update_frame_witness :
    ∃ item,
      (save_message_to_db
          [("s1", { title := some "T", messages := some [], lastMessage := none,
                    messageCount := some 0, createdAt := some 5, updatedAt := some 6,
                    extra := [("pinned", AttrVal.bool true)] })]
          "s1" "hi" "there" 1000).getItem "s1" = some item ∧
      item.createdAt = some 5 ∧ item.extra = [("pinned", AttrVal.bool true)] := by
  obtain ⟨⟨item, h1, h2, h3, _, _, _⟩, _⟩ :=
    claim_C10_update_frame
      [("s1", { title := some "T", messages := some [], lastMessage := none,
                messageCount := some 0, createdAt := some 5, updatedAt := some 6,
                extra := [("pinned", AttrVal.bool true)] })]
      "s1" "hi" "there" 1000
      { title := some "T", messages := some [], lastMessage := none,
        messageCount := some 0, createdAt := some 5, updatedAt := some 6,
        extra := [("pinned", AttrVal.bool true)] }
      (by rfl)
  exact ⟨item, h1, h2, h3⟩

/-- Any title `save_message_to_db` writes for a nonempty user message is
nonempty. -/
theorem save_title_ne_empty (t : Table) (sid u b : String) (ts : Int) (hu : u ≠ "")
    (item : Item) (hit : (save_message_to_db t sid u b ts).getItem sid = some item)
    (τ : String) (hτ : item.title = some τ) : τ ≠ "" := by
  have hlen : 0 < u.length := length_pos_of_ne_empty hu
  have htake : pyTake u 50 ≠ "" := pyTake_ne_empty hu (by decide)
  cases h : t.getItem sid with
  | none =>
    rw [save_getItem_none t sid u b ts h] at hit
    injection hit with e
    subst e
    simp only [hlen, if_pos] at hτ
    injection hτ with e2
    subst e2
    exact htake
  | some old =>
    rw [save_getItem_some t sid u b ts old h] at hit
    injection hit with e
    subst e
    cases hot : old.title with
    | none =>
      simp only [hot, hlen, if_pos] at hτ
      injection hτ with e2
      subst e2
      exact htake
    | some ti =>
      by_cases hcond : ti = "" ∨ ti = "New Chat"
      · simp only [hot, hcond, if_true, hlen, if_pos] at hτ
        injection hτ with e2
        subst e2
        exact htake
      · simp only [hot, hcond, if_false] at hτ
        injection hτ with e2
        subst e2
        exact fun he => hcond (Or.inl he)

/-- C5: on update, the stored title is preserved unless the existing title is
missing, empty or the default placeholder, in which case it becomes the first
50 characters of the new user message; on creation the title is the first 50
characters of the user message, or the placeholder when the message is empty.
Hence two sequential sends leave the title at the first call's value unless
that value was the placeholder. -/
theorem claim_C5_title_rules (t : Table) (sid u b u2 b2 : String) (ts ts2 : Int) :
    (∀ old ti, t.getItem sid = some old → old.title = some ti → ti ≠ "" →
      ti ≠ "New Chat" →
      ∃ item, (save_message_to_db t sid u b ts).getItem sid = some item ∧
        item.title = some ti) ∧
    (u ≠ "" → ∀ old, t.getItem sid = some old →
      (old.title = none ∨ old.title = some "" ∨ old.title = some "New Chat") →
      ∃ item, (save_message_to_db t sid u b ts).getItem sid = some item ∧
        item.title = some (pyTake u 50)) ∧
    (t.getItem sid = none →
      ∃ item, (save_message_to_db t sid u b ts).getItem sid = some item ∧
        item.title = some (if u.length > 0 then pyTake u 50 else "New Chat")) ∧
    (u ≠ "" → u2 ≠ "" → ∀ item1 τ,
      (save_message_to_db t sid u b ts).getItem sid = some item1 →
      item1.title = some τ → τ ≠ "New Chat" →
      ∃ item2,
        (save_message_to_db (save_message_to_db t sid u b ts) sid u2 b2 ts2).getItem sid
          = some item2 ∧ item2.title = some τ) := by
  refine ⟨?_, ?_, ?_, ?_⟩
  · intro old ti hold hti hne hnp
    rw [save_getItem_some t sid u b ts old hold]
    refine ⟨_, rfl, ?_⟩
    simp [hti, hne, hnp]
  · intro hu old hold hblank
    have hlen : 0 < u.length := length_pos_of_ne_empty hu
    rw [save_getItem_some t sid u b ts old hold]
    refine ⟨_, rfl, ?_⟩
    rcases hblank with hb | hb | hb <;> simp [hb, hlen]
  · intro habs
    rw [save_getItem_none t sid u b ts habs]
    exact ⟨_, rfl, rfl⟩
  · intro hu hu2 item1 τ h1 hτ hnp
    have hτne : τ ≠ "" := save_title_ne_empty t sid u b ts hu item1 h1 τ hτ
    rw [save_getItem_some _ sid u2 b2 ts2 item1 h1]
    refine ⟨_, rfl, ?_⟩
    simp [hτ, hτne, hnp]

/-- Witness for C5: a fresh session takes its title from the first message
and a second send leaves it unchanged. -/
theorem claim_C5_title_rules_witness :
    (∃ item, (save_message_to_db [] "s1" "Hello world" "resp" 1).getItem "s1"
        = some item ∧ item.title = some "Hello world") ∧
    (∃ item2,
      (save_message_to_db (save_message_to_db [] "s1" "Hello world" "resp" 1)
          "s1" "Second message" "resp2" 2).getItem "s1" = some item2 ∧
      item2.title = some "Hello world") := by
  obtain ⟨c1, c2, c3, c4⟩ :=
    claim_C5_title_rules [] "s1" "Hello world" "resp" "Second message" "resp2" 1 2
  constructor
  · obtain ⟨item, h1, h2⟩ := c3 (by rfl)
    exact ⟨item, h1, h2.trans (by rfl)⟩
  · obtain ⟨item2, h1, h2⟩ := c4 (by decide) (by decide)
      { title := some "Hello world"
        messages := some [⟨"user", "Hello world", 1⟩, ⟨"assistant", "resp", 2⟩]
        lastMessage := some "resp"
        messageCount := some 2
        createdAt := some 1
        updatedAt := some 1
        extra := [] }
      "Hello world" (by rfl) rfl (by decide)
    exact ⟨item2, h1, h2⟩

/-- C4: when the agent invocation succeeds and the message is nonempty, a
failing persistence step changes nothing about the response: the handler
still returns 200 carrying the accumulated chat response, and the store is
left untouched. -/
theorem claim_C4_persistence_failure_still_200 (message sessionIdOpt : Option String)
    (requestId : String) (stream_start : Int) (events : List TimedEvent)
    (timestamp : Int) (t : Table)
    (hmsg : pyStrip (message.getD "") ≠ "") :
    (handle_send_message message sessionIdOpt requestId
        (AgentResult.stream stream_start events) timestamp false t).1 =
      (handle_send_message message sessionIdOpt requestId
        (AgentResult.stream stream_start events) timestamp true t).1 ∧
    (handle_send_message message sessionIdOpt requestId
        (AgentResult.stream stream_start events) timestamp false t).1.statusCode = 200 ∧
    (handle_send_message message sessionIdOpt requestId
        (AgentResult.stream stream_start events) timestamp false t).2 = t ∧
    (handle_send_message message sessionIdOpt requestId
        (AgentResult.stream stream_start events) timestamp false t).1.body =
      ProxyBody.sendOk
        (pyStrip (if pyStrip (accumulate stream_start events) = "" then
            "Agent returned no response. Try rephrasing your query."
          else accumulate stream_start events))
        (sessionIdOpt.getD ("session-" ++ requestId)) := by
  refine ⟨?_, ?_, ?_, ?_⟩ <;> simp [handle_send_message, hmsg]

/-- Witness for C4: a concrete send whose persistence fails still answers 200
with the streamed text, and the store stays empty. -/
theorem claim_C4_persistence_failure_still_200_witness :
    (handle_send_message (some "hi") (some "s1") "req"
        (AgentResult.stream 0 [⟨1, StreamEvent.chunkBytes (some "hello")⟩]) 5 false []).1
      = (handle_send_message (some "hi") (some "s1") "req"
          (AgentResult.stream 0 [⟨1, StreamEvent.chunkBytes (some "hello")⟩]) 5 true []).1 ∧
    (handle_send_message (some "hi") (some "s1") "req"
        (AgentResult.stream 0 [⟨1, StreamEvent.chunkBytes (some "hello")⟩]) 5 false []).1.statusCode
      = 200 ∧
    (handle_send_message (some "hi") (some "s1") "req"
        (AgentResult.stream 0 [⟨1, StreamEvent.chunkBytes (some "hello")⟩]) 5 false []).2
      = ([] : Table) ∧
    (handle_send_message (some "hi") (some "s1") "req"
        (AgentResult.stream 0 [⟨1, StreamEvent.chunkBytes (some "hello")⟩]) 5 false []).1.body
      = ProxyBody.sendOk
          (pyStrip (if pyStrip (accumulate 0 [⟨1, StreamEvent.chunkBytes (some "hello")⟩]) = ""
            then "Agent returned no response. Try rephrasing your query."
            else accumulate 0 [⟨1, StreamEvent.chunkBytes (some "hello")⟩]))
          ((some "s1").getD ("session-" ++ "req")) :=
  claim_C4_persistence_failure_still_200 (some "hi") (some "s1") "req" 0
    [⟨1, StreamEvent.chunkBytes (some "hello")⟩] 5 [] (by decide)

/-- Accumulation as the claim words it (for comparison with the code): a
30-second budget measured from the arrival of the first chunk, i.e. from the
instant the loop examines the first event. -/
def specAccumulateFromFirstChunk (events : List TimedEvent) : String :=
  match events with
  | [] => ""
  | e :: _ => accumulate e.checkTime events

/-- C6 counterexample: the code starts the 30-second budget at `stream_start`,
taken before the first chunk arrives — not at the arrival of the first chunk.
A single chunk whose first examination happens 31 seconds after
`stream_start` is discarded by the code, while under the claim's
budget-from-first-chunk reading it arrives 0 seconds into the budget and
would be kept; the returned body then carries the empty-response placeholder
instead of the chunk text. -/
theorem claim_C6_counterexample :
    accumulate 0 [⟨31, StreamEvent.chunkBytes (some "hello")⟩] = "" ∧
    specAccumulateFromFirstChunk [⟨31, StreamEvent.chunkBytes (some "hello")⟩] = "hello" ∧
    accumulate 0 [⟨31, StreamEvent.chunkBytes (some "hello")⟩] ≠
      specAccumulateFromFirstChunk [⟨31, StreamEvent.chunkBytes (some "hello")⟩] ∧
    (handle_send_message (some "hi") (some "s1") "req"
        (AgentResult.stream 0 [⟨31, StreamEvent.chunkBytes (some "hello")⟩]) 5 true []).1.body
      = ProxyBody.sendOk "Agent returned no response. Try rephrasing your query." "s1" :=
  ⟨rfl, rfl, by decide, rfl⟩

/-- C6 (amended): accumulation is bounded by a 30-second wall-clock budget
measured from `stream_start`, the instant `time.time()` is read after the
agent invocation returns and before the first chunk arrives; events first
examined more than 30 seconds after that instant are discarded, accumulation
stops at the first such event, and the response carries exactly the trimmed
accumulation (or the fixed empty-response placeholder when it is blank), with
no truncation indicator added. -/
theorem claim_C6_amended_budget_from_stream_start (stream_start : Int)
    (events : List TimedEvent) (message sessionIdOpt : Option String)
    (requestId : String) (timestamp : Int) (saveOk : Bool) (t : Table)
    (hmsg : pyStrip (message.getD "") ≠ "") :
    accumulate stream_start events =
      ((events.takeWhile (fun e => decide (e.checkTime - stream_start ≤ 30))).map
        decodedText).foldr (fun a acc => a ++ acc) "" ∧
    (handle_send_message message sessionIdOpt requestId
        (AgentResult.stream stream_start events) timestamp saveOk t).1.body =
      ProxyBody.sendOk
        (pyStrip (if pyStrip (accumulate stream_start events) = "" then
            "Agent returned no response. Try rephrasing your query."
          else accumulate stream_start events))
        (sessionIdOpt.getD ("session-" ++ requestId)) := by
  constructor
  · induction events with
    | nil => rfl
    | cons e rest ih =>
      by_cases hc : e.checkTime - stream_start > 30
      · have hn : ¬e.checkTime ≤ 30 + stream_start := by omega
        simp [accumulate, hc, List.takeWhile_cons, hn]
      · have hy : e.checkTime ≤ 30 + stream_start := by omega
        simp [accumulate, hc, List.takeWhile_cons, hy, ih]
  · simp [handle_send_message, hmsg]

/-- Witness for C6 (amended): a stream with one in-budget chunk, one chunk
examined past the budget and one after it; only the first is kept. -/
theorem claim_C6_amended_budget_from_stream_start_witness :
    accumulate 0 [⟨1, StreamEvent.chunkBytes (some "keep")⟩,
        ⟨31, StreamEvent.chunkBytes (some "late")⟩,
        ⟨2, StreamEvent.chunkBytes (some "gone")⟩] =
      (([⟨1, StreamEvent.chunkBytes (some "keep")⟩,
          ⟨31, StreamEvent.chunkBytes (some "late")⟩,
          ⟨2, StreamEvent.chunkBytes (some "gone")⟩].takeWhile
            (fun e => decide (e.checkTime - 0 ≤ 30))).map
        decodedText).foldr (fun a acc => a ++ acc) "" ∧
    (handle_send_message (some "hi") (some "s1") "req"
        (AgentResult.stream 0 [⟨1, StreamEvent.chunkBytes (some "keep")⟩,
          ⟨31, StreamEvent.chunkBytes (some "late")⟩,
          ⟨2, StreamEvent.chunkBytes (some "gone")⟩]) 5 true []).1.body =
      ProxyBody.sendOk
        (pyStrip (if pyStrip (accumulate 0 [⟨1, StreamEvent.chunkBytes (some "keep")⟩,
            ⟨31, StreamEvent.chunkBytes (some "late")⟩,
            ⟨2, StreamEvent.chunkBytes (some "gone")⟩]) = "" then
            "Agent returned no response. Try rephrasing your query."
          else accumulate 0 [⟨1, StreamEvent.chunkBytes (some "keep")⟩,
            ⟨31, StreamEvent.chunkBytes (some "late")⟩,
            ⟨2, StreamEvent.chunkBytes (some "gone")⟩]))
        ((some "s1").getD ("session-" ++ "req")) :=
  claim_C6_amended_budget_from_stream_start 0
    [⟨1, StreamEvent.chunkBytes (some "keep")⟩,
     ⟨31, StreamEvent.chunkBytes (some "late")⟩,
     ⟨2, StreamEvent.chunkBytes (some "gone")⟩]
    (some "hi") (some "s1") "req" 5 true [] (by decide)

/-- C7: `rename` rejects a missing `sessionId` with 400 and a missing or
blank-after-trim title with 400, leaving the store untouched in both
cases. -/
theorem claim_C7_rename_validation (sessionIdOpt titleOpt : Option String) (t : Table) :
    (sessionIdOpt = none →
      handle_rename_conversation sessionIdOpt titleOpt t =
        (⟨400, ProxyBody.err "sessionId required"⟩, t)) ∧
    (∀ sid, sessionIdOpt = some sid → sid ≠ "" → pyStrip (titleOpt.getD "") = "" →
      handle_rename_conversation sessionIdOpt titleOpt t =
        (⟨400, ProxyBody.err "title required"⟩, t)) := by
  constructor
  · rintro rfl
    rfl
  · rintro sid rfl hsid htitle
    simp [handle_rename_conversation, pyFalsyStr, hsid, htitle]

/-- Witness for C7: a missing `sessionId` and a whitespace-only title each
give 400 on a concrete store, which is returned unchanged. -/
theorem claim_C7_rename_validation_witness :
    handle_rename_conversation none (some "Title") [] =
      (⟨400, ProxyBody.err "sessionId required"⟩, ([] : Table)) ∧
    handle_rename_conversation (some "s1") (some "  ") [] =
      (⟨400, ProxyBody.err "title required"⟩, ([] : Table)) :=
  ⟨(claim_C7_rename_validation none (some "Title") []).1 rfl,
   (claim_C7_rename_validation (some "s1") (some "  ") []).2 "s1" rfl
     (by decide) (by decide)⟩

/-- C8: `load` of a session with no stored record answers 200 with an empty
message list, not an error. -/
theorem claim_C8_load_missing_record (sid : String) (isoFmt : Int → String)
    (t : Table) (hsid : sid ≠ "") (habs : t.getItem sid = none) :
    handle_load_conversation (some sid) isoFmt t = ⟨200, ProxyBody.loadOk []⟩ := by
  simp [handle_load_conversation, pyFalsyStr, hsid, habs]

/-- Witness for C8: loading an unknown session from a nonempty store. -/
theorem claim_C8_load_missing_record_witness :
    handle_load_conversation (some "missing") (fun _ => "t")
        [("other", { title := some "T", messages := some [], lastMessage := none,
                     messageCount := some 0, createdAt := some 1, updatedAt := some 2,
                     extra := [] })] =
      ⟨200, ProxyBody.loadOk []⟩ :=
  claim_C8_load_missing_record "missing" (fun _ => "t") _ (by decide) (by rfl)

/-- C9: `list` answers 200 with one projection per stored record — its
timestamp `updatedAt`, falling back to `createdAt`, falling back to 0 — and
the projections sorted by descending timestamp. -/
theorem claim_C9_list_sorted_projection (t : Table) :
    ∃ cs, handle_list_conversations t = ⟨200, ProxyBody.listOk cs⟩ ∧
      cs.Perm (t.map projectConversation) ∧
      cs.Sorted (fun a b => b.timestamp ≤ a.timestamp) ∧
      ∀ p ∈ t, projectConversation p =
        { sessionId := p.1
          title := p.2.title.getD "New Chat"
          lastMessage := p.2.lastMessage.getD ""
          timestamp :=
            match p.2.updatedAt with
            | some ts => ts
            | none =>
              match p.2.createdAt with
              | some c => c
              | none => 0
          messageCount := p.2.messageCount.getD 0 } := by
  refine ⟨_, rfl, List.perm_insertionSort tsGe _, List.sorted_insertionSort tsGe _, ?_⟩
  intro p _
  cases p2u : p.2.updatedAt <;> cases p2c : p.2.createdAt <;>
    simp [projectConversation, p2u, p2c]

/-- Witness for C9: three records with mixed presence of `updatedAt` and
`createdAt`. -/
theorem claim_C9_list_sorted_projection_witness :
    ∃ cs, handle_list_conversations
        [("a", { title := some "A", messages := none, lastMessage := some "la",
                 messageCount := some 2, createdAt := some 10, updatedAt := some 20,
                 extra := [] }),
         ("b", { title := none, messages := none, lastMessage := none,
                 messageCount := none, createdAt := some 50, updatedAt := none,
                 extra := [] }),
         ("c", { title := some "C", messages := none, lastMessage := none,
                 messageCount := some 4, createdAt := none, updatedAt := none,
                 extra := [] })] = ⟨200, ProxyBody.listOk cs⟩ ∧
      cs.Sorted (fun a b => b.timestamp ≤ a.timestamp) := by
  obtain ⟨cs, h1, _, h3, _⟩ := claim_C9_list_sorted_projection
    [("a", { title := some "A", messages := none, lastMessage := some "la",
             messageCount := some 2, createdAt := some 10, updatedAt := some 20,
             extra := [] }),
     ("b", { title := none, messages := none, lastMessage := none,
             messageCount := none, createdAt := some 50, updatedAt := none,
             extra := [] }),
     ("c", { title := some "C", messages := none, lastMessage := none,
             messageCount := some 4, createdAt := none, updatedAt := none,
             extra := [] })]
  exact ⟨cs, h1, h3⟩
